import Mathlib

/-!
Shallow embedding of the vendor-management backend
(`src/routes/vendorRoutes.js`).  Monetary amounts are modelled as exact
rationals (`ℚ`); JavaScript numbers are IEEE doubles, but every claim under
study is about the arithmetic branch structure of the code, which is
translated literally (including the `Number.EPSILON` comparison, embedded
as the exact rational `2 ^ (-52)`).

The database is a pair of lists (vendors, transactions); each route is a
pure function from a database state and a request to either an HTTP error
or a new state plus the response payload.  The schema allows a NULL
`pending_amount` and the code guards it with `COALESCE(pending_amount,
total_amount)`, but every write path of the code stores a concrete value,
so `pending_amount` is modelled as a plain rational.
-/

namespace VendorMS

/-- Derived vendor payment status (never stored on the vendor row). -/
inductive Status where
  | Pending
  | Partial
  | Paid
deriving DecidableEq, Repr

/-- A row of the `vendors` table. -/
structure Vendor where
  vendor_id : ℕ
  vendor_name : String
  vendor_contact_number : String
  vendor_address : String
  vendor_bill : Option String
  total_amount : ℚ
  pending_amount : ℚ
deriving DecidableEq, Repr

/-- A row of the `transactions` table.  `status` is the snapshot of the
vendor status taken when the transaction was written. -/
structure Txn where
  transaction_id : ℕ
  vendor_id : ℕ
  transaction_date : String
  amount : ℚ
  note : Option String
  status : Status
deriving DecidableEq, Repr

/-- The database: the two tables. -/
structure DBState where
  vendors : List Vendor
  transactions : List Txn
deriving DecidableEq, Repr

/-- HTTP-level failure classes used by the routes. -/
inductive HttpError where
  | badRequest (msg : String)
  | notFound (msg : String)
  | serverError
deriving DecidableEq, Repr

/-- A JavaScript request-body value, as far as the code inspects one:
absent (`undefined`), a JSON number, or a form/string value. -/
inductive JSValue where
  | missing
  | num (q : ℚ)
  | str (s : String)
deriving DecidableEq, Repr

/-- JavaScript truthiness of a body value: `undefined` and `0` and the
empty string are falsy, everything else modelled here is truthy. -/
def truthy : JSValue → Bool
  | .missing => false
  | .num q => decide (q ≠ 0)
  | .str s => !s.isEmpty

/-- Numeric value of a digit list (most significant first). -/
def digitsToNat (l : List Char) : ℕ :=
  l.foldl (fun a c => 10 * a + (c.toNat - 48)) 0

/-- Modelled subset of JavaScript `parseFloat` on strings: an optional
sign followed by a plain decimal literal parses to its exact value; any
other string is `none` (NaN).  Exponents, `Infinity`, surrounding
whitespace and trailing junk are outside the modelled subset. -/
def parseDecimal (s : String) : Option ℚ :=
  let signed : ℚ × List Char :=
    match s.toList with
    | '-' :: r => (-1, r)
    | '+' :: r => (1, r)
    | r => (1, r)
  let intPart := signed.2.takeWhile Char.isDigit
  let rest := signed.2.dropWhile Char.isDigit
  match rest with
  | [] =>
      if intPart.isEmpty then none
      else some (signed.1 * (digitsToNat intPart : ℚ))
  | '.' :: frac =>
      if frac.all Char.isDigit then
        if intPart.isEmpty && frac.isEmpty then none
        else some (signed.1 *
          ((digitsToNat intPart : ℚ) + (digitsToNat frac : ℚ) / 10 ^ frac.length))
      else none
  | _ => none

/-- `parseFloat` applied to a body value; `none` models NaN. -/
def parseFloatJS : JSValue → Option ℚ
  | .missing => none
  | .num q => some q
  | .str s => parseDecimal s

/-- `Number.EPSILON`, exactly. -/
def eps : ℚ := 1 / 2 ^ 52

/-- `clamp x lo hi` as used by the specification text. -/
def clamp (x lo hi : ℚ) : ℚ := min (max x lo) hi

/-- The balance invariant the specification asserts for every vendor. -/
def VendorInv (v : Vendor) : Prop :=
  0 ≤ v.pending_amount ∧ v.pending_amount ≤ v.total_amount

instance (v : Vendor) : Decidable (VendorInv v) := by
  unfold VendorInv; infer_instance

/-- Fresh vendor id, standing in for the database serial. -/
def newVendorId (st : DBState) : ℕ :=
  (st.vendors.map Vendor.vendor_id).foldr max 0 + 1

/-- Fresh transaction id, standing in for the database serial. -/
def newTxId (st : DBState) : ℕ :=
  (st.transactions.map Txn.transaction_id).foldr max 0 + 1

/-- `SELECT * FROM vendors WHERE vendor_id = $1`. -/
def findVendor (st : DBState) (id : ℕ) : Option Vendor :=
  st.vendors.find? (fun v => v.vendor_id == id)

/-- `UPDATE vendors SET ... WHERE vendor_id = ...`: replace the matching
rows. -/
def replaceVendor (l : List Vendor) (v' : Vendor) : List Vendor :=
  l.map (fun v => if v.vendor_id == v'.vendor_id then v' else v)

/-- Add-transaction balance update (`vendorRoutes.js` lines 214-218):
`newPending = currentPending - amt`, clamped at zero. -/
def addNewPending (currentPending amt : ℚ) : ℚ :=
  if currentPending - amt ≤ 0 then 0 else currentPending - amt

/-- Add-transaction status computation (`vendorRoutes.js` lines 216-223),
including the `Math.abs(newPending - total) < Number.EPSILON` branch. -/
def addStatus (total currentPending amt : ℚ) : Status :=
  if currentPending - amt ≤ 0 then .Paid
  else if |currentPending - amt - total| < eps then .Pending
  else .Partial

/-- Overpayment reported by add-transaction (`vendorRoutes.js` line 250). -/
def overpaymentOf (currentPending amt : ℚ) : ℚ :=
  if currentPending < amt then amt - currentPending else 0

/-- Update-transaction balance computation (`vendorRoutes.js` lines
133-135): reverse the old amount, apply the new one, clamp into
`[0, total]`. -/
def updateTxNewPending (total currentPending oldAmount amt : ℚ) : ℚ :=
  let np := currentPending + oldAmount - amt
  let np1 := if np < 0 then 0 else np
  if np1 > total then total else np1

/-- Delete-transaction balance update (`vendorRoutes.js` lines 289-294):
`LEAST(GREATEST(pending + amount, 0), total_amount)`. -/
def deleteNewPending (total currentPending amt : ℚ) : ℚ :=
  min (max (currentPending + amt) 0) total

/-- Status derivation used by the list-vendors route (`vendorRoutes.js`
lines 315-321): default `Pending`; `Paid` when pending is zero, `Partial`
when pending is below total. -/
def statusOf (pendingAmount totalAmount : ℚ) : Status :=
  if pendingAmount = 0 then .Paid
  else if pendingAmount < totalAmount then .Partial
  else .Pending

/-- Modelled from the spec: the status rule as the specification words it
("Paid iff pending == 0, Pending iff pending == total, else Partial",
with the `Paid` clause taking precedence at `pending = total = 0`).  Kept
separate from `statusOf` for the refinement comparison of claim C7. -/
def specStatus (pendingAmount totalAmount : ℚ) : Status :=
  if pendingAmount = 0 then .Paid
  else if pendingAmount = totalAmount then .Pending
  else .Partial

/-- Request body of `POST /` (create vendor).  Name/contact/address arrive
as form strings (absent collapses to the empty string, which is equally
falsy); `total_amount` is kept as a raw body value because the code
inspects both its truthiness and its parsed number.  `file` abstracts the
uploaded bill as the URL the storage service would return. -/
structure CreateReq where
  vendor_name : String
  vendor_contact_number : String
  vendor_address : String
  total_amount : JSValue
  file : Option String
deriving DecidableEq, Repr

/-- Response payload of a successful vendor creation. -/
structure CreateResult where
  state : DBState
  vendor : Vendor
  status : Status
deriving DecidableEq, Repr

/-- `POST /` (`vendorRoutes.js` lines 14-76): required-field truthiness
check, parse-and-sign check on the total, then insert with
`pending_amount = total` and respond with status `Pending`. -/
def createVendor (st : DBState) (req : CreateReq) : Except HttpError CreateResult :=
  if req.vendor_name.isEmpty = true ∨ req.vendor_contact_number.isEmpty = true
      ∨ truthy req.total_amount = false then
    .error (.badRequest "Name, contact, and total amount are required")
  else
    match parseFloatJS req.total_amount with
    | none => .error (.badRequest "Invalid total_amount")
    | some total =>
      if total < 0 then .error (.badRequest "Invalid total_amount")
      else
        let v : Vendor :=
          { vendor_id := newVendorId st
            vendor_name := req.vendor_name
            vendor_contact_number := req.vendor_contact_number
            vendor_address := req.vendor_address
            vendor_bill := req.file
            total_amount := total
            pending_amount := total }
        .ok { state := { st with vendors := st.vendors ++ [v] }
              vendor := v
              status := .Pending }

/-- Database state after a create request: on any error the transactionless
insert never ran, so the state is unchanged. -/
def createVendorState (st : DBState) (req : CreateReq) : DBState :=
  match createVendor st req with
  | .ok r => r.state
  | .error _ => st

/-- Request body of `POST /:vendorId/transactions` and
`PUT /transactions/:transactionId`; `amount` is the `parseFloat` result
(`none` = NaN/absent), `note`/`transaction_date` are `null` when falsy. -/
structure TxReq where
  amount : Option ℚ
  note : Option String
  transaction_date : Option String
deriving DecidableEq, Repr

/-- Response payload of a successful add-transaction. -/
structure AddTxResult where
  state : DBState
  transaction : Txn
  vendor : Vendor
  status : Status
  overpayment : ℚ
deriving DecidableEq, Repr

/-- `POST /:vendorId/transactions` (`vendorRoutes.js` lines 176-259):
validate the amount, lock and read the vendor, compute the new pending and
status, insert the transaction with the status snapshot, store the new
pending, report the overpayment.  `now` stands for `NOW()`. -/
def addTransaction (st : DBState) (vendorId : ℕ) (req : TxReq) (now : String) :
    Except HttpError AddTxResult :=
  match req.amount with
  | none => .error (.badRequest "amount is required and must be a positive number")
  | some amt =>
    if amt ≤ 0 then
      .error (.badRequest "amount is required and must be a positive number")
    else
      match findVendor st vendorId with
      | none => .error (.notFound "Vendor not found")
      | some vendor =>
        let total := vendor.total_amount
        let currentPending := vendor.pending_amount
        let newPending := addNewPending currentPending amt
        let status := addStatus total currentPending amt
        let tx : Txn :=
          { transaction_id := newTxId st
            vendor_id := vendorId
            transaction_date := (req.transaction_date).getD now
            amount := amt
            note := req.note
            status := status }
        let vendor' := { vendor with pending_amount := newPending }
        .ok { state := { vendors := replaceVendor st.vendors vendor'
                         transactions := st.transactions ++ [tx] }
              transaction := tx
              vendor := vendor'
              status := status
              overpayment := overpaymentOf currentPending amt }

/-- Response payload the update-transaction route would return on success. -/
structure UpdateTxResult where
  state : DBState
  transaction : Txn
  vendor : Vendor
deriving DecidableEq, Repr

/-- The row transformation denoted by the `SET` clause of the
update-transaction `UPDATE transactions` statement (`vendorRoutes.js`
lines 139-147): amount replaced, date kept when none supplied, note
replaced; every other column (in particular `status`) untouched. -/
def updateTxRowSet (t : Txn) (amt : ℚ) (date note : Option String) : Txn :=
  { t with
      amount := amt
      transaction_date := date.getD t.transaction_date
      note := note }

/-- `PUT /transactions/:transactionId` (`vendorRoutes.js` lines 79-173):
validate the amount, lock the transaction row, lock the vendor row,
compute the clamped new pending — and then execute the `UPDATE
transactions` statement, whose text references placeholder `$5` while only
four values are bound (line 146), so the driver raises, the transaction is
rolled back and the route answers 500.  No state change ever commits. -/
def updateTransaction (st : DBState) (transactionId : ℕ) (req : TxReq) :
    Except HttpError UpdateTxResult :=
  match req.amount with
  | none => .error (.badRequest "amount is required and must be a positive number")
  | some amt =>
    if amt ≤ 0 then
      .error (.badRequest "amount is required and must be a positive number")
    else
      match st.transactions.find? (fun t => t.transaction_id == transactionId) with
      | none => .error (.notFound "Transaction not found")
      | some tx =>
        match findVendor st tx.vendor_id with
        | none => .error (.notFound "Vendor not found")
        | some vendor =>
          let _newPending :=
            updateTxNewPending vendor.total_amount vendor.pending_amount tx.amount amt
          .error .serverError

/-- `DELETE /:vendorId/transactions/:transactionId` (`vendorRoutes.js`
lines 261-305): look up the amount of the transaction belonging to the
vendor, delete the row (by transaction id alone), and restore the vendor's
pending with the atomic clamped update. -/
def deleteTransaction (st : DBState) (vendorId transactionId : ℕ) :
    Except HttpError DBState :=
  match st.transactions.find?
      (fun t => t.transaction_id == transactionId && t.vendor_id == vendorId) with
  | none => .error (.notFound "Transaction not found")
  | some tx =>
    .ok { vendors := st.vendors.map (fun v =>
            if v.vendor_id == vendorId then
              { v with pending_amount :=
                  deleteNewPending v.total_amount v.pending_amount tx.amount }
            else v)
          transactions := st.transactions.filter
            (fun t => !(t.transaction_id == transactionId)) }

/-- Request body of `PUT /:id`.  String fields use `none` for a falsy
(absent/empty) value, which the `||` merge replaces with the stored one;
`total_amount` is `none` when the raw value is falsy or absent, otherwise
its parsed number; `new_paid_amount` is the `parseFloat(x) || 0` result
with `none` for the absent/NaN case. -/
structure UpdateVendorReq where
  vendor_name : Option String
  vendor_contact_number : Option String
  vendor_address : Option String
  total_amount : Option ℚ
  new_paid_amount : Option ℚ
  file : Option String
deriving DecidableEq, Repr

/-- Response payload of a successful vendor update. -/
structure UpdateVendorResult where
  state : DBState
  vendor : Vendor
  paid_amount : ℚ
  status : Status
deriving DecidableEq, Repr

/-- Status computation of `PUT /:id` (`vendorRoutes.js` lines 403-406):
`Pending` for a zero total-paid, `Paid` once total-paid reaches the total,
else `Partial`. -/
def updVendorStatus (total totalPaid : ℚ) : Status :=
  if totalPaid = 0 then .Pending
  else if totalPaid ≥ total then .Paid
  else .Partial

/-- The synthetic transaction `PUT /:id` appends when a positive payment
accompanies the update (`vendorRoutes.js` lines 426-432). -/
def synthTx (st : DBState) (vendorId : ℕ) (paid : ℚ) (status : Status)
    (now : String) : Txn :=
  { transaction_id := newTxId st
    vendor_id := vendorId
    transaction_date := now
    amount := paid
    note := some "Payment update"
    status := status }

/-- `PUT /:id` (`vendorRoutes.js` lines 376-442): merge supplied fields
over stored ones; `total` is the request total when supplied (truthy),
else the stored one; `alreadyPaid = total - pending_amount` (with that
merged total); `totalPaid = alreadyPaid + new_paid_amount`; status from
`totalPaid` against `total`; `pending_amount = max(total - totalPaid, 0)`;
append the synthetic payment transaction exactly when the paid amount is
positive.  No validation is applied to either number. -/
def updateVendor (st : DBState) (vendorId : ℕ) (req : UpdateVendorReq)
    (now : String) : Except HttpError UpdateVendorResult :=
  match findVendor st vendorId with
  | none => .error (.notFound "Vendor not found")
  | some vendor =>
    let updatedVendorBill :=
      match req.file with
      | some f => some f
      | none => vendor.vendor_bill
    let total := (req.total_amount).getD vendor.total_amount
    let alreadyPaid := total - vendor.pending_amount
    let paid := (req.new_paid_amount).getD 0
    let totalPaid := alreadyPaid + paid
    let status := updVendorStatus total totalPaid
    let pending_amount := max (total - totalPaid) 0
    let vendor' : Vendor :=
      { vendor_id := vendor.vendor_id
        vendor_name := (req.vendor_name).getD vendor.vendor_name
        vendor_contact_number :=
          (req.vendor_contact_number).getD vendor.vendor_contact_number
        vendor_address := (req.vendor_address).getD vendor.vendor_address
        vendor_bill := updatedVendorBill
        total_amount := total
        pending_amount := pending_amount }
    let st' : DBState :=
      { vendors := replaceVendor st.vendors vendor'
        transactions :=
          if paid > 0 then st.transactions ++ [synthTx st vendorId paid status now]
          else st.transactions }
    .ok { state := st', vendor := vendor', paid_amount := totalPaid, status := status }

/-- `GET /` (`vendorRoutes.js` lines 308-331): every vendor annotated with
the derived status. -/
def listVendors (st : DBState) : List (Vendor × Status) :=
  st.vendors.map (fun v => (v, statusOf v.pending_amount v.total_amount))

/-! ### Accessors used to state the claims -/

/-- Pending amount of the vendor as stored in a state. -/
def pendingOf? (st : DBState) (vid : ℕ) : Option ℚ :=
  (findVendor st vid).map Vendor.pending_amount

/-- Stored pending amount of the vendor returned by add-transaction. -/
def addTxPending? (r : Except HttpError AddTxResult) : Option ℚ :=
  match r with
  | .ok res => some res.vendor.pending_amount
  | .error _ => none

/-- Overpayment field of the add-transaction response. -/
def addTxOverpayment? (r : Except HttpError AddTxResult) : Option ℚ :=
  match r with
  | .ok res => some res.overpayment
  | .error _ => none

/-- Pending and total of the vendor returned by update-vendor. -/
def updVendorPendingTotal? (r : Except HttpError UpdateVendorResult) :
    Option (ℚ × ℚ) :=
  match r with
  | .ok res => some (res.vendor.pending_amount, res.vendor.total_amount)
  | .error _ => none

/-- Vendor record returned by update-vendor. -/
def updVendorVendor? (r : Except HttpError UpdateVendorResult) : Option Vendor :=
  match r with
  | .ok res => some res.vendor
  | .error _ => none

/-- Transactions table after update-vendor. -/
def updVendorTxns? (r : Except HttpError UpdateVendorResult) : Option (List Txn) :=
  match r with
  | .ok res => some res.state.transactions
  | .error _ => none

/-! ### Helper lemmas -/

lemma mem_le_foldr_max (l : List ℕ) (x : ℕ) (h : x ∈ l) :
    x ≤ l.foldr max 0 := by
  induction l with
  | nil => cases h
  | cons a l ih =>
    rcases List.mem_cons.mp h with rfl | h'
    · exact le_max_left _ _
    · exact le_trans (ih h') (le_max_right _ _)

lemma txId_lt_newTxId (st : DBState) (t : Txn) (h : t ∈ st.transactions) :
    t.transaction_id < newTxId st := by
  have : t.transaction_id ∈ st.transactions.map Txn.transaction_id :=
    List.mem_map_of_mem _ h
  exact Nat.lt_succ_of_le (mem_le_foldr_max _ _ this)

lemma find?_append_none {α} (p : α → Bool) {l1 : List α} (l2 : List α)
    (h : ∀ x ∈ l1, p x = false) :
    (l1 ++ l2).find? p = l2.find? p := by
  induction l1 with
  | nil => rfl
  | cons a l ih =>
    have ha : p a = false := h a (List.mem_cons_self a l)
    simp only [List.cons_append, List.find?, ha]
    exact ih fun x hx => h x (List.mem_cons_of_mem a hx)

lemma find?_map' {α β} (f : α → β) (p : β → Bool) (l : List α) :
    (l.map f).find? p = (l.find? fun a => p (f a)).map f := by
  induction l with
  | nil => rfl
  | cons a l ih =>
    by_cases h : p (f a)
    · simp [List.find?, h]
    · simp only [List.map_cons, List.find?, h]
      simpa [h] using ih

lemma findVendor_eq_vendorId {st : DBState} {vid : ℕ} {v : Vendor}
    (h : findVendor st vid = some v) : v.vendor_id = vid := by
  have h2 := List.find?_some h
  simpa [beq_iff_eq] using h2

/-- Pure form of the add-transaction pending update: it is the spec's
clamp whenever the prior state satisfies the invariant and the amount is
positive. -/
lemma addNewPending_eq_clamp {p t a : ℚ} (h0 : 0 ≤ p) (hpt : p ≤ t)
    (ha : 0 < a) : addNewPending p a = clamp (p - a) 0 t := by
  unfold addNewPending clamp
  by_cases h : p - a ≤ 0
  · rw [if_pos h]
    have h1 : max (p - a) 0 = 0 := max_eq_right h
    rw [h1, min_eq_left (le_trans h0 hpt)]
  · rw [if_neg h]
    push_neg at h
    have h1 : max (p - a) 0 = p - a := max_eq_left h.le
    rw [h1, min_eq_left (by linarith)]

/-- Pure form of the reported overpayment. -/
lemma overpaymentOf_eq_max (p a : ℚ) : overpaymentOf p a = max (a - p) 0 := by
  unfold overpaymentOf
  by_cases h : p < a
  · rw [if_pos h, max_eq_left (by linarith)]
  · rw [if_neg h, max_eq_right (by push_neg at h; linarith)]

/-- When the payment does not exceed the pending balance, the add-path
stores exactly `p - a`. -/
lemma addNewPending_of_le {p a : ℚ} (h : a ≤ p) : addNewPending p a = p - a := by
  unfold addNewPending
  by_cases hle : p - a ≤ 0
  · rw [if_pos hle]; linarith [le_antisymm hle (by linarith : 0 ≤ p - a)]
  · rw [if_neg hle]

/-- The delete-path update, written as the spec's clamp. -/
lemma deleteNewPending_eq_clamp (t p a : ℚ) :
    deleteNewPending t p a = clamp (p + a) 0 t := rfl

/-- Full description of a successful add-transaction. -/
lemma addTransaction_ok_eq (st : DBState) (vid : ℕ) (req : TxReq) (now : String)
    (vendor : Vendor) (a : ℚ)
    (hfind : findVendor st vid = some vendor)
    (hamt : req.amount = some a) (ha : 0 < a) :
    addTransaction st vid req now = .ok
      { state :=
          { vendors := replaceVendor st.vendors
              { vendor with pending_amount := addNewPending vendor.pending_amount a }
            transactions := st.transactions ++
              [{ transaction_id := newTxId st
                 vendor_id := vid
                 transaction_date := (req.transaction_date).getD now
                 amount := a
                 note := req.note
                 status := addStatus vendor.total_amount vendor.pending_amount a }] }
        transaction :=
          { transaction_id := newTxId st
            vendor_id := vid
            transaction_date := (req.transaction_date).getD now
            amount := a
            note := req.note
            status := addStatus vendor.total_amount vendor.pending_amount a }
        vendor := { vendor with pending_amount := addNewPending vendor.pending_amount a }
        status := addStatus vendor.total_amount vendor.pending_amount a
        overpayment := overpaymentOf vendor.pending_amount a } := by
  unfold addTransaction
  rw [hamt]
  dsimp only
  rw [if_neg (not_le.mpr ha), hfind]

/-! ### Example records used to instantiate the theorems -/

/-- A vendor with total 1000 and pending 600. -/
def demoVendor : Vendor :=
  { vendor_id := 1
    vendor_name := "Acme"
    vendor_contact_number := "123"
    vendor_address := "HQ"
    vendor_bill := none
    total_amount := 1000
    pending_amount := 600 }

/-- A database holding only `demoVendor`. -/
def demoState : DBState := { vendors := [demoVendor], transactions := [] }

/-- An add/update-transaction request carrying just an amount. -/
def demoReq (a : ℚ) : TxReq := { amount := some a, note := none, transaction_date := none }

/-! ### Claims -/

/-- C2: adding a transaction of amount `a > 0` to a vendor with pending
`p` and total `t` (with `0 ≤ p ≤ t`) stores `clamp (p - a, 0, t)` as the
new pending amount and reports `overpayment = max (a - p) 0`. -/
theorem c2_add_transaction_clamp_and_overpayment
    (st : DBState) (vid : ℕ) (req : TxReq) (now : String) (vendor : Vendor) (a : ℚ)
    (hfind : findVendor st vid = some vendor)
    (hamt : req.amount = some a)
    (h0 : 0 ≤ vendor.pending_amount)
    (hpt : vendor.pending_amount ≤ vendor.total_amount)
    (ha : 0 < a) :
    addTxPending? (addTransaction st vid req now)
        = some (clamp (vendor.pending_amount - a) 0 vendor.total_amount) ∧
      addTxOverpayment? (addTransaction st vid req now)
        = some (max (a - vendor.pending_amount) 0) := by
  rw [addTransaction_ok_eq st vid req now vendor a hfind hamt ha]
  unfold addTxPending? addTxOverpayment?
  exact ⟨congrArg some (addNewPending_eq_clamp h0 hpt ha),
    congrArg some (overpaymentOf_eq_max _ _)⟩

/-- Witness for C2 at the vendor (total 1000, pending 600) and amount 400. -/
theorem c2_witness :
    addTxPending? (addTransaction demoState 1 (demoReq 400) "now")
        = some (clamp (600 - 400) 0 1000) ∧
      addTxOverpayment? (addTransaction demoState 1 (demoReq 400) "now")
        = some (max (400 - 600) 0) :=
  c2_add_transaction_clamp_and_overpayment demoState 1 (demoReq 400) "now"
    demoVendor 400 rfl rfl (by norm_num [demoVendor]) (by norm_num [demoVendor])
    (by norm_num)

/-- C7 (amended): the status annotation is a pure function of
`(pending, total)`; on every state satisfying the balance invariant it
agrees with the spec's rule (`Paid` iff pending is zero, `Pending` iff
pending equals total, else `Partial`), and the list route annotates every
returned vendor with exactly that function.  (For `pending > total` the
code reports `Pending` where the spec's rule says `Partial`.) -/
theorem c7_status_pure_function :
    (∀ p t : ℚ, 0 ≤ p → p ≤ t → statusOf p t = specStatus p t) ∧
    (∀ (st : DBState) (v : Vendor) (s : Status), (v, s) ∈ listVendors st →
      s = statusOf v.pending_amount v.total_amount) := by
  constructor
  · intro p t _h0 hpt
    unfold statusOf specStatus
    by_cases hp : p = 0
    · simp [hp]
    · rw [if_neg hp, if_neg hp]
      rcases lt_or_eq_of_le hpt with h | h
      · rw [if_pos h, if_neg (ne_of_lt h)]
      · rw [if_neg (by rw [h]; exact lt_irrefl t), if_pos h]
  · intro st v s hmem
    unfold listVendors at hmem
    rcases List.mem_map.mp hmem with ⟨v0, _hv0, heq⟩
    cases heq
    rfl

/-- Counterexample for C7 as stated: at pending 5, total 3 the code
reports `Pending` while the claimed rule gives `Partial`. -/
theorem c7_counterexample : statusOf 5 3 ≠ specStatus 5 3 := by decide

/-- Witness for C7 at pending 0, total 5. -/
theorem c7_witness : statusOf 0 5 = specStatus 0 5 :=
  c7_status_pure_function.1 0 5 le_rfl (by norm_num)

/-- C10 (amended): under the balance invariant, the status computed by
add-transaction is `Paid` or `Partial` for every amount of at least
`Number.EPSILON`; the epsilon-comparison branch yielding `Pending` is
unreachable only under that strengthened hypothesis. -/
theorem c10_add_status_paid_or_partial (t p a : ℚ)
    (_h0 : 0 ≤ p) (hpt : p ≤ t) (ha : eps ≤ a) :
    addStatus t p a = .Paid ∨ addStatus t p a = .Partial := by
  have heps : (0 : ℚ) < eps := by norm_num [eps]
  unfold addStatus
  by_cases h1 : p - a ≤ 0
  · left; rw [if_pos h1]
  · right
    rw [if_neg h1]
    have habs : |p - a - t| = t + a - p := by
      rw [abs_of_nonpos (by linarith)]; ring
    rw [if_neg (not_lt.mpr (by rw [habs]; linarith))]

/-- Counterexample for C10 as stated: with total 1, pending 1 (a state
satisfying the invariant) and the positive amount `2 ^ (-53)`, the
epsilon branch fires and the computed status is `Pending`. -/
theorem c10_counterexample :
    0 ≤ (1 : ℚ) ∧ (1 : ℚ) ≤ 1 ∧ 0 < (1 / 2 ^ 53 : ℚ) ∧
      addStatus 1 1 (1 / 2 ^ 53) = .Pending := by
  refine ⟨by norm_num, le_refl _, by positivity, ?_⟩
  unfold addStatus eps
  rw [if_neg (by norm_num), if_pos (by rw [abs_of_nonpos (by norm_num)]; norm_num)]

/-- Witness for C10 at total 1, pending 0, amount 1. -/
theorem c10_witness : addStatus 1 0 1 = .Paid ∨ addStatus 1 0 1 = .Partial :=
  c10_add_status_paid_or_partial 1 0 1 le_rfl zero_le_one (by norm_num [eps])

/-- Stored pending amount of the vendor after adding a transaction and
then deleting that same transaction, with no mutation in between. -/
def addThenDeletePending? (st : DBState) (vid : ℕ) (req : TxReq) (now : String) :
    Option ℚ :=
  match addTransaction st vid req now with
  | .error _ => none
  | .ok r =>
    match deleteTransaction r.state vid r.transaction.transaction_id with
    | .error _ => none
    | .ok st2 => pendingOf? st2 vid

lemma find?_vendor_map (l : List Vendor) (vid : ℕ) (h : Vendor → Vendor)
    (hid : ∀ v, (h v).vendor_id = v.vendor_id) :
    (l.map h).find? (fun v => v.vendor_id == vid)
      = (l.find? (fun v => v.vendor_id == vid)).map h := by
  rw [find?_map']
  have hfun : (fun a => (h a).vendor_id == vid) = (fun v : Vendor => v.vendor_id == vid) :=
    funext fun a => by rw [hid]
  rw [hfun]

/-- The add-then-delete composite always stores
`deleteNewPending t (addNewPending p a) a` for the affected vendor. -/
lemma addThenDelete_eq
    (st : DBState) (vid : ℕ) (req : TxReq) (now : String) (vendor : Vendor) (a : ℚ)
    (hfind : findVendor st vid = some vendor)
    (hamt : req.amount = some a)
    (ha : 0 < a) :
    addThenDeletePending? st vid req now
      = some (deleteNewPending vendor.total_amount
          (addNewPending vendor.pending_amount a) a) := by
  have hvid : vendor.vendor_id = vid := findVendor_eq_vendorId hfind
  unfold addThenDeletePending?
  rw [addTransaction_ok_eq st vid req now vendor a hfind hamt ha]
  dsimp only
  unfold deleteTransaction
  dsimp only
  rw [find?_append_none _ _ (by
    intro t ht
    have hlt := txId_lt_newTxId st t ht
    have hne : (t.transaction_id == newTxId st) = false := by
      simp [Nat.ne_of_lt hlt]
    simp [hne])]
  rw [List.find?_cons_of_pos _ (by simp)]
  dsimp only
  unfold pendingOf? findVendor replaceVendor
  rw [find?_vendor_map _ vid _ (fun v => by split_ifs <;> rfl)]
  rw [find?_vendor_map _ vid _ (fun v => by
    by_cases hv : v.vendor_id = vendor.vendor_id <;> simp [hv])]
  have hfind' : st.vendors.find? (fun v => v.vendor_id == vid) = some vendor := hfind
  rw [hfind']
  dsimp only [Option.map]
  simp [hvid]

/-- The add-then-delete composite restores the pre-add pending amount
exactly when the add did not overpay, or the overpaying delete's upper
clamp lands back on a fully pending balance (`p = t`). -/
lemma addThenDelete_restores_iff {t p a : ℚ}
    (h0 : 0 ≤ p) (hpt : p ≤ t) (ha : 0 < a) :
    deleteNewPending t (addNewPending p a) a = p ↔ (a ≤ p ∨ p = t) := by
  unfold addNewPending deleteNewPending
  by_cases hle : p - a ≤ 0
  · rw [if_pos hle, zero_add, max_eq_left ha.le]
    have hpa : p ≤ a := by linarith
    constructor
    · intro hmin
      rcases le_total a t with h | h
      · rw [min_eq_left h] at hmin
        exact Or.inl hmin.le
      · rw [min_eq_right h] at hmin
        exact Or.inr hmin.symm
    · intro hor
      rcases hor with h | h
      · rw [le_antisymm h hpa, min_eq_left hpt]
      · subst h
        exact min_eq_right hpa
  · rw [if_neg hle]
    have hap : a < p := by linarith
    rw [show p - a + a = p by ring, max_eq_left h0, min_eq_left hpt]
    exact ⟨fun _ => Or.inl hap.le, fun _ => rfl⟩

/-- C3 (amended): the delete path restores pending via
`clamp (p' + a, 0, t)`; adding a transaction of amount `a` and then
deleting that same transaction (no mutation in between) returns the
pending amount to its pre-add value if and only if `a ≤ p` or `p = t`:
an overpaying add onto a partially paid vendor has its excess absorbed by
the floor at zero and resurrected by the delete, so in the spec's
concrete run (total 1000, pending 600, add 700, delete it) the pending
becomes 700, not 600. -/
theorem c3_add_delete_round_trip
    (st : DBState) (vid : ℕ) (req : TxReq) (now : String) (vendor : Vendor) (a : ℚ)
    (hfind : findVendor st vid = some vendor)
    (hamt : req.amount = some a)
    (h0 : 0 ≤ vendor.pending_amount)
    (hpt : vendor.pending_amount ≤ vendor.total_amount)
    (ha : 0 < a) :
    addThenDeletePending? st vid req now = some vendor.pending_amount ↔
      (a ≤ vendor.pending_amount ∨
        vendor.pending_amount = vendor.total_amount) := by
  rw [addThenDelete_eq st vid req now vendor a hfind hamt ha]
  rw [Option.some.injEq]
  exact addThenDelete_restores_iff h0 hpt ha

/-- Counterexample for C3 as stated: the spec's own concrete run.  With
total 1000 and pending 600, adding 700 clamps the pending to 0; deleting
that transaction then stores `clamp (0 + 700, 0, 1000) = 700`, not the
pre-add 600. -/
theorem c3_counterexample :
    addThenDeletePending? demoState 1 (demoReq 700) "now" = some 700 ∧
      (700 : ℚ) ≠ 600 := by
  constructor
  · rw [addThenDelete_eq demoState 1 (demoReq 700) "now" demoVendor 700 rfl rfl
      (by norm_num)]
    norm_num [demoVendor, addNewPending, deleteNewPending]
  · norm_num

/-- Witness for C3 at the vendor (total 1000, pending 600) and amount 400. -/
theorem c3_witness :
    addThenDeletePending? demoState 1 (demoReq 400) "now" = some 600 ↔
      ((400 : ℚ) ≤ 600 ∨ (600 : ℚ) = 1000) :=
  c3_add_delete_round_trip demoState 1 (demoReq 400) "now" demoVendor 400
    rfl rfl (by norm_num [demoVendor]) (by norm_num [demoVendor]) (by norm_num)

/-- An update-vendor request raising the total to 2000 with a payment of
100. -/
def demoUpdReq : UpdateVendorReq :=
  { vendor_name := none
    vendor_contact_number := none
    vendor_address := none
    total_amount := some 2000
    new_paid_amount := some 100
    file := none }

/-- An update-vendor request lowering the total to 100 with no payment. -/
def demoUpdReqLow : UpdateVendorReq :=
  { vendor_name := none
    vendor_contact_number := none
    vendor_address := none
    total_amount := some 100
    new_paid_amount := some 0
    file := none }

/-- C4 (amended): update-vendor computes `alreadyPaid = total -
pending_amount` using the post-merge total (the request's `total_amount`
when supplied), adds the request's `new_paid_amount`, stores
`pending_amount = max (total - totalPaid) 0` — which simplifies to
`max (p - paid) 0` — and appends a synthetic payment transaction exactly
when the paid amount is positive. -/
theorem c4_update_vendor_post_total
    (st : DBState) (vid : ℕ) (req : UpdateVendorReq) (now : String)
    (vendor : Vendor) (t' paid : ℚ)
    (hfind : findVendor st vid = some vendor)
    (ht : req.total_amount = some t')
    (hp : req.new_paid_amount = some paid) :
    updVendorPendingTotal? (updateVendor st vid req now)
        = some (max (t' - ((t' - vendor.pending_amount) + paid)) 0, t') ∧
      updVendorPendingTotal? (updateVendor st vid req now)
        = some (max (vendor.pending_amount - paid) 0, t') ∧
      updVendorTxns? (updateVendor st vid req now)
        = some (if paid > 0 then
            st.transactions ++
              [synthTx st vid paid
                (updVendorStatus t' ((t' - vendor.pending_amount) + paid)) now]
          else st.transactions) := by
  unfold updateVendor updVendorPendingTotal? updVendorTxns?
  rw [hfind]
  dsimp only
  rw [ht, hp]
  dsimp only [Option.getD]
  refine ⟨rfl, ?_, rfl⟩
  rw [show t' - ((t' - vendor.pending_amount) + paid)
      = vendor.pending_amount - paid by ring]

/-- Counterexample for C4 as stated: raising the total from 1000 to 2000
with a payment of 100 on pending 600 stores pending 500 (post-merge
total), while the claimed pre-update-total formula predicts 1500. -/
theorem c4_counterexample :
    updVendorPendingTotal? (updateVendor demoState 1 demoUpdReq "now")
        = some (500, 2000) ∧
      (500 : ℚ)
        ≠ max (2000 - ((demoVendor.total_amount - demoVendor.pending_amount)
            + 100)) 0 := by
  constructor
  · have h := (c4_update_vendor_post_total demoState 1 demoUpdReq "now"
      demoVendor 2000 100 rfl rfl rfl).2.1
    rw [h]
    norm_num [demoVendor]
  · norm_num [demoVendor]

/-- Witness for C4 at the demo vendor with new total 2000 and payment 100. -/
theorem c4_witness :
    updVendorPendingTotal? (updateVendor demoState 1 demoUpdReq "now")
        = some (max (2000 - ((2000 - demoVendor.pending_amount) + 100)) 0, 2000) :=
  (c4_update_vendor_post_total demoState 1 demoUpdReq "now"
    demoVendor 2000 100 rfl rfl rfl).1

/-- C1 (amended): the invariant `0 ≤ pending ≤ total` is preserved by
vendor creation, by add-transaction (positive amount), by the
update-transaction balance formula, and by delete-transaction; the
update-vendor operation preserves it exactly on requests whose effective
total is at least `max (p - new_paid, 0)` — lowering the total below the
current pending (or supplying a negative total or payment) can violate
it. -/
theorem c1_invariant_preservation :
    (∀ (st : DBState) (req : CreateReq) (r : CreateResult),
        createVendor st req = .ok r → VendorInv r.vendor) ∧
    (∀ p t a : ℚ, 0 ≤ p → p ≤ t → 0 < a →
        0 ≤ addNewPending p a ∧ addNewPending p a ≤ t) ∧
    (∀ t p aOld aNew : ℚ, 0 ≤ p → p ≤ t →
        0 ≤ updateTxNewPending t p aOld aNew ∧ updateTxNewPending t p aOld aNew ≤ t) ∧
    (∀ t p a : ℚ, 0 ≤ p → p ≤ t →
        0 ≤ deleteNewPending t p a ∧ deleteNewPending t p a ≤ t) ∧
    (∀ (st : DBState) (vid : ℕ) (req : UpdateVendorReq) (now : String)
        (vendor : Vendor) (r : UpdateVendorResult),
        findVendor st vid = some vendor →
        updateVendor st vid req now = .ok r →
        max (vendor.pending_amount - (req.new_paid_amount).getD 0) 0
            ≤ (req.total_amount).getD vendor.total_amount →
        VendorInv r.vendor) := by
  refine ⟨?_, ?_, ?_, ?_, ?_⟩
  · intro st req r h
    unfold createVendor at h
    split at h
    · exact Except.noConfusion h
    · split at h
      · exact Except.noConfusion h
      · split at h
        · exact Except.noConfusion h
        · cases h
          next total _ hneg =>
            exact ⟨not_lt.mp hneg, le_refl _⟩
  · intro p t a h0 hpt ha
    unfold addNewPending
    split_ifs with h
    · exact ⟨le_refl _, le_trans h0 hpt⟩
    · constructor <;> linarith
  · intro t p aOld aNew h0 hpt
    unfold updateTxNewPending
    dsimp only
    split_ifs with h1 h2 h2 <;> constructor <;> linarith
  · intro t p a h0 hpt
    unfold deleteNewPending
    constructor
    · exact le_min (le_max_right _ _) (le_trans h0 hpt)
    · exact min_le_right _ _
  · intro st vid req now vendor r hfind h hle
    unfold updateVendor at h
    rw [hfind] at h
    dsimp only at h
    cases h
    unfold VendorInv
    dsimp only
    refine ⟨le_max_right _ _, ?_⟩
    rw [show (req.total_amount).getD vendor.total_amount
          - ((req.total_amount).getD vendor.total_amount - vendor.pending_amount
            + (req.new_paid_amount).getD 0)
        = vendor.pending_amount - (req.new_paid_amount).getD 0 by ring]
    exact hle

/-- Counterexample for C1 as stated: update-vendor on the demo vendor
(total 1000, pending 600) with new total 100 and no payment stores
pending 600 against total 100, violating `pending ≤ total`. -/
theorem c1_counterexample :
    updVendorPendingTotal? (updateVendor demoState 1 demoUpdReqLow "now")
        = some (600, 100) ∧
      ¬ ((600 : ℚ) ≤ 100) := by
  constructor
  · have h := (c4_update_vendor_post_total demoState 1 demoUpdReqLow "now"
      demoVendor 100 0 rfl rfl rfl).2.1
    rw [h]
    norm_num [demoVendor]
  · norm_num

/-- Witness for C1 at concrete balances. -/
theorem c1_witness :
    (0 ≤ addNewPending 600 400 ∧ addNewPending 600 400 ≤ 1000) ∧
      (0 ≤ deleteNewPending 1000 0 700 ∧ deleteNewPending 1000 0 700 ≤ 1000) :=
  ⟨c1_invariant_preservation.2.1 600 1000 400 (by norm_num) (by norm_num)
      (by norm_num),
    c1_invariant_preservation.2.2.2.1 1000 0 700 (by norm_num) (by norm_num)⟩

/-- Pending amount, total amount and response status of a successful
vendor creation. -/
def createPendingTotalStatus? (r : Except HttpError CreateResult) :
    Option (ℚ × ℚ × Status) :=
  match r with
  | .ok res => some (res.vendor.pending_amount, res.vendor.total_amount, res.status)
  | .error _ => none

/-- Whether a create response is a 400 validation error. -/
def isBadRequest (r : Except HttpError CreateResult) : Bool :=
  match r with
  | .error (.badRequest _) => true
  | _ => false

/-- C6 (amended): create-vendor accepts every request with a nonempty
name, a nonempty contact and a truthy `total_amount` parsing to a
non-negative number, inserting exactly one row with
`pending_amount = total_amount` and response status `Pending`; every
other request — a missing/empty name or contact, a falsy, unparseable or
negative total — is answered with a 400 validation error and no row is
persisted.  (A numeric total of 0 supplied as a JSON number is falsy and
therefore rejected by the required-fields check despite being a
non-negative number.) -/
theorem c6_create_vendor_validation (st : DBState) (req : CreateReq) :
    (∀ t : ℚ, req.vendor_name.isEmpty = false →
      req.vendor_contact_number.isEmpty = false →
      truthy req.total_amount = true →
      parseFloatJS req.total_amount = some t →
      0 ≤ t →
      createPendingTotalStatus? (createVendor st req) = some (t, t, .Pending) ∧
        (createVendorState st req).vendors = st.vendors ++
          [{ vendor_id := newVendorId st
             vendor_name := req.vendor_name
             vendor_contact_number := req.vendor_contact_number
             vendor_address := req.vendor_address
             vendor_bill := req.file
             total_amount := t
             pending_amount := t }]) ∧
    ((req.vendor_name.isEmpty = true ∨ req.vendor_contact_number.isEmpty = true ∨
        truthy req.total_amount = false ∨ parseFloatJS req.total_amount = none ∨
        (∃ t, parseFloatJS req.total_amount = some t ∧ t < 0)) →
      isBadRequest (createVendor st req) = true ∧
        createVendorState st req = st) := by
  constructor
  · intro t hn hc htr hp h0
    have hg : ¬(req.vendor_name.isEmpty = true
        ∨ req.vendor_contact_number.isEmpty = true
        ∨ truthy req.total_amount = false) := by
      simp [hn, hc, htr]
    unfold createPendingTotalStatus? createVendorState createVendor
    rw [if_neg hg, hp]
    dsimp only
    rw [if_neg (not_lt.mpr h0)]
    exact ⟨rfl, rfl⟩
  · intro hrej
    by_cases hg : (req.vendor_name.isEmpty = true
        ∨ req.vendor_contact_number.isEmpty = true
        ∨ truthy req.total_amount = false)
    · unfold isBadRequest createVendorState createVendor
      rw [if_pos hg]
      exact ⟨rfl, rfl⟩
    · rcases hrej with h | h | h | h | ⟨t, hp, hlt⟩
      · exact absurd (Or.inl h) hg
      · exact absurd (Or.inr (Or.inl h)) hg
      · exact absurd (Or.inr (Or.inr h)) hg
      · unfold isBadRequest createVendorState createVendor
        rw [if_neg hg, h]
        exact ⟨rfl, rfl⟩
      · unfold isBadRequest createVendorState createVendor
        rw [if_neg hg, hp]
        dsimp only
        rw [if_pos hlt]
        exact ⟨rfl, rfl⟩

/-- A create request whose total is the JSON number 0: non-negative and
numeric, yet falsy. -/
def c6ZeroReq : CreateReq :=
  { vendor_name := "Acme"
    vendor_contact_number := "123"
    vendor_address := "HQ"
    total_amount := .num 0
    file := none }

/-- A create request with total -5. -/
def c6NegReq : CreateReq :=
  { vendor_name := "Acme"
    vendor_contact_number := "123"
    vendor_address := "HQ"
    total_amount := .num (-5)
    file := none }

/-- Counterexample for C6 as stated: a request with a name, a contact and
the non-negative numeric total 0 (sent as a JSON number) is rejected by
the required-fields truthiness check. -/
theorem c6_counterexample :
    parseFloatJS c6ZeroReq.total_amount = some 0 ∧ (0 : ℚ) ≤ 0 ∧
      createVendor demoState c6ZeroReq
        = .error (.badRequest "Name, contact, and total amount are required") := by
  refine ⟨rfl, le_refl _, ?_⟩
  rfl

/-- Witness for C6: the spec's `total_amount = -5` request is rejected
with a validation error and the state is unchanged. -/
theorem c6_witness :
    isBadRequest (createVendor demoState c6NegReq) = true ∧
      createVendorState demoState c6NegReq = demoState :=
  (c6_create_vendor_validation demoState c6NegReq).2
    (Or.inr (Or.inr (Or.inr (Or.inr ⟨-5, rfl, by norm_num⟩))))

/-- A transaction of amount 200 on the demo vendor. -/
def demoTx : Txn :=
  { transaction_id := 1
    vendor_id := 1
    transaction_date := "2024-01-01"
    amount := 200
    note := none
    status := .Partial }

/-- A database holding the demo vendor and one transaction of 200. -/
def demoStateTx : DBState := { vendors := [demoVendor], transactions := [demoTx] }

/-- The update-transaction balance formula equals the spec's clamp. -/
lemma updateTxNewPending_eq_clamp (t p aOld aNew : ℚ) :
    updateTxNewPending t p aOld aNew = clamp (p + aOld - aNew) 0 t := by
  unfold updateTxNewPending clamp
  dsimp only
  rcases lt_or_le (p + aOld - aNew) 0 with h | h
  · rw [if_pos h, max_eq_right h.le]
    rcases lt_or_le t 0 with h2 | h2
    · rw [if_pos h2, min_eq_right h2.le]
    · rw [if_neg (not_lt.mpr h2), min_eq_left h2]
  · rw [if_neg (not_lt.mpr h), max_eq_left h]
    rcases lt_or_le t (p + aOld - aNew) with h2 | h2
    · rw [if_pos h2, min_eq_right h2.le]
    · rw [if_neg (not_lt.mpr h2), min_eq_left h2]

/-- C5: the balance formula of the update-transaction route is indeed
`clamp (p + a_old - a_new, 0, t)`, but the route can never commit it: its
`UPDATE transactions` statement references placeholder `$5` while binding
only four values, so a valid request (transaction 1 of amount 200, new
amount 50, owner with total 1000 and pending 600) is answered with a 500
server error and the vendor's pending amount is never changed. -/
theorem c5_update_transaction_binding_bug :
    updateTransaction demoStateTx 1 (demoReq 50) = .error .serverError ∧
      ∀ t p aOld aNew : ℚ,
        updateTxNewPending t p aOld aNew = clamp (p + aOld - aNew) 0 t :=
  ⟨rfl, updateTxNewPending_eq_clamp⟩

/-- C8: the `SET` clause of the update-transaction statement changes only
`amount`, `transaction_date` and `note` and leaves `status` (and the key
columns) unchanged — but no update-transaction operation ever succeeds,
because the statement binds placeholder `$5` with only four values: the
route answers 500 on the valid request updating transaction 1 to
amount 100. -/
theorem c8_update_transaction_row_frame :
    (∀ (t : Txn) (amt : ℚ) (d n : Option String),
        (updateTxRowSet t amt d n).status = t.status ∧
          (updateTxRowSet t amt d n).transaction_id = t.transaction_id ∧
          (updateTxRowSet t amt d n).vendor_id = t.vendor_id) ∧
      updateTransaction demoStateTx 1 (demoReq 100) = .error .serverError :=
  ⟨fun _ _ _ _ => ⟨rfl, rfl, rfl⟩, rfl⟩

/-!
### Interleaving model for concurrent add-transaction requests

Two sessions run the add-transaction critical section against the same
vendor row.  `SELECT ... FOR UPDATE` acquires the row lock and reads the
pending amount in one atomic step; the balance write happens under the
lock; `COMMIT` releases it.  A session at program counter 0 has not
started, 1 holds the lock with the pending amount read into its local,
2 has written the new balance, 3 has committed.  A session whose lock
acquisition is blocked simply cannot step.
-/

/-- A configuration of the two-session interleaving: the lock owner
(`false` = session 1, `true` = session 2), the stored pending amount, and
each session's program counter and local read. -/
structure Conf where
  lock : Option Bool
  pending : ℚ
  pc1 : ℕ
  r1 : ℚ
  pc2 : ℕ
  r2 : ℚ
deriving DecidableEq, Repr

/-- One interleaved step of the two concurrent add-transaction sessions,
session 1 adding `a1` and session 2 adding `a2`. -/
inductive AddStep (a1 a2 : ℚ) : Conf → Conf → Prop where
  | acq1 (c : Conf) (hl : c.lock = none) (hp : c.pc1 = 0) :
      AddStep a1 a2 c { c with lock := some false, r1 := c.pending, pc1 := 1 }
  | wr1 (c : Conf) (hp : c.pc1 = 1) :
      AddStep a1 a2 c { c with pending := addNewPending c.r1 a1, pc1 := 2 }
  | rel1 (c : Conf) (hp : c.pc1 = 2) :
      AddStep a1 a2 c { c with lock := none, pc1 := 3 }
  | acq2 (c : Conf) (hl : c.lock = none) (hp : c.pc2 = 0) :
      AddStep a1 a2 c { c with lock := some true, r2 := c.pending, pc2 := 1 }
  | wr2 (c : Conf) (hp : c.pc2 = 1) :
      AddStep a1 a2 c { c with pending := addNewPending c.r2 a2, pc2 := 2 }
  | rel2 (c : Conf) (hp : c.pc2 = 2) :
      AddStep a1 a2 c { c with lock := none, pc2 := 3 }

/-- Initial configuration: stored pending `p0`, both sessions unstarted. -/
def addInit (p0 : ℚ) : Conf :=
  { lock := none, pending := p0, pc1 := 0, r1 := 0, pc2 := 0, r2 := 0 }

/-- Reachability from the initial configuration by interleaved steps. -/
def AddReach (p0 a1 a2 : ℚ) (c : Conf) : Prop :=
  Relation.ReflTransGen (AddStep a1 a2) (addInit p0) c

/-- Inductive invariant of the interleaving: the lock serializes the two
read-modify-write sections, so the pending amount always reflects a
prefix of one of the two serial orders. -/
def addInv (p0 a1 a2 : ℚ) (c : Conf) : Prop :=
  (c.pc1 = 0 ∧ c.pc2 = 0 ∧ c.lock = none ∧ c.pending = p0) ∨
  (c.pc1 = 1 ∧ c.pc2 = 0 ∧ c.lock = some false ∧ c.r1 = p0 ∧ c.pending = p0) ∨
  (c.pc1 = 2 ∧ c.pc2 = 0 ∧ c.lock = some false ∧
    c.pending = addNewPending p0 a1) ∨
  (c.pc1 = 3 ∧ c.pc2 = 0 ∧ c.lock = none ∧ c.pending = addNewPending p0 a1) ∨
  (c.pc1 = 3 ∧ c.pc2 = 1 ∧ c.lock = some true ∧ c.r2 = addNewPending p0 a1 ∧
    c.pending = addNewPending p0 a1) ∨
  (c.pc1 = 3 ∧ c.pc2 = 2 ∧ c.lock = some true ∧
    c.pending = addNewPending (addNewPending p0 a1) a2) ∨
  (c.pc1 = 0 ∧ c.pc2 = 1 ∧ c.lock = some true ∧ c.r2 = p0 ∧ c.pending = p0) ∨
  (c.pc1 = 0 ∧ c.pc2 = 2 ∧ c.lock = some true ∧
    c.pending = addNewPending p0 a2) ∨
  (c.pc1 = 0 ∧ c.pc2 = 3 ∧ c.lock = none ∧ c.pending = addNewPending p0 a2) ∨
  (c.pc1 = 1 ∧ c.pc2 = 3 ∧ c.lock = some false ∧ c.r1 = addNewPending p0 a2 ∧
    c.pending = addNewPending p0 a2) ∨
  (c.pc1 = 2 ∧ c.pc2 = 3 ∧ c.lock = some false ∧
    c.pending = addNewPending (addNewPending p0 a2) a1) ∨
  (c.pc1 = 3 ∧ c.pc2 = 3 ∧ c.lock = none ∧
    (c.pending = addNewPending (addNewPending p0 a1) a2 ∨
      c.pending = addNewPending (addNewPending p0 a2) a1))

lemma addInv_step (p0 a1 a2 : ℚ) {c c' : Conf}
    (hinv : addInv p0 a1 a2 c) (hstep : AddStep a1 a2 c c') :
    addInv p0 a1 a2 c' := by
  cases hstep <;>
    rcases hinv with ⟨e1, e2, e3, e4⟩ | ⟨e1, e2, e3, e4, e5⟩ | ⟨e1, e2, e3, e4⟩ |
      ⟨e1, e2, e3, e4⟩ | ⟨e1, e2, e3, e4, e5⟩ | ⟨e1, e2, e3, e4⟩ |
      ⟨e1, e2, e3, e4, e5⟩ | ⟨e1, e2, e3, e4⟩ | ⟨e1, e2, e3, e4⟩ |
      ⟨e1, e2, e3, e4, e5⟩ | ⟨e1, e2, e3, e4⟩ | ⟨e1, e2, e3, e4⟩ <;>
    simp_all [addInv]

lemma addInv_of_reach (p0 a1 a2 : ℚ) {c : Conf} (h : AddReach p0 a1 a2 c) :
    addInv p0 a1 a2 c := by
  induction h with
  | refl => exact Or.inl ⟨rfl, rfl, rfl, rfl⟩
  | tail _hsteps hstep ih => exact addInv_step p0 a1 a2 ih hstep

/-- C9: because each add-transaction session acquires the vendor row lock
before its read-modify-write, every complete interleaving of two
concurrent adds ends with the pending amount of one of the two serial
orders — never a lost update; for total 1000, pending 1000 and amounts
300 and 400 both serial orders give 300, which differs from the
lost-update values 700 and 600. -/
theorem c9_concurrent_adds_serialize (p0 a1 a2 : ℚ) (c : Conf)
    (hreach : AddReach p0 a1 a2 c) (h1 : c.pc1 = 3) (h2 : c.pc2 = 3) :
    (c.pending = addNewPending (addNewPending p0 a1) a2 ∨
        c.pending = addNewPending (addNewPending p0 a2) a1) ∧
      addNewPending (addNewPending 1000 300) 400 = 300 ∧
      addNewPending (addNewPending 1000 400) 300 = 300 ∧
      (300 : ℚ) ≠ 700 ∧ (300 : ℚ) ≠ 600 := by
  have hinv := addInv_of_reach p0 a1 a2 hreach
  refine ⟨?_, by norm_num [addNewPending], by norm_num [addNewPending],
    by norm_num, by norm_num⟩
  rcases hinv with ⟨e1, e2, e3, e4⟩ | ⟨e1, e2, e3, e4, e5⟩ | ⟨e1, e2, e3, e4⟩ |
      ⟨e1, e2, e3, e4⟩ | ⟨e1, e2, e3, e4, e5⟩ | ⟨e1, e2, e3, e4⟩ |
      ⟨e1, e2, e3, e4, e5⟩ | ⟨e1, e2, e3, e4⟩ | ⟨e1, e2, e3, e4⟩ |
      ⟨e1, e2, e3, e4, e5⟩ | ⟨e1, e2, e3, e4⟩ | ⟨e1, e2, e3, e4⟩ <;>
    simp_all

/-- The configuration reached by running session 1 to completion and then
session 2, with total 1000, pending 1000, amounts 300 and 400. -/
def c9finalConf : Conf :=
  { lock := none
    pending := addNewPending (addNewPending 1000 300) 400
    pc1 := 3
    r1 := 1000
    pc2 := 3
    r2 := addNewPending 1000 300 }

/-- Witness for C9: the serial run session 1 then session 2 is a complete
reachable interleaving, and the theorem applies to it. -/
theorem c9_witness :
    (c9finalConf.pending = addNewPending (addNewPending 1000 300) 400 ∨
        c9finalConf.pending = addNewPending (addNewPending 1000 400) 300) ∧
      addNewPending (addNewPending 1000 300) 400 = 300 ∧
      addNewPending (addNewPending 1000 400) 300 = 300 ∧
      (300 : ℚ) ≠ 700 ∧ (300 : ℚ) ≠ 600 := by
  refine c9_concurrent_adds_serialize 1000 300 400 c9finalConf ?_ rfl rfl
  have h0 : Relation.ReflTransGen (AddStep 300 400) (addInit 1000) (addInit 1000) :=
    Relation.ReflTransGen.refl
  have h1 := h0.tail (AddStep.acq1 (addInit 1000) rfl rfl)
  have h2 := h1.tail (AddStep.wr1 _ rfl)
  have h3 := h2.tail (AddStep.rel1 _ rfl)
  have h4 := h3.tail (AddStep.acq2 _ rfl rfl)
  have h5 := h4.tail (AddStep.wr2 _ rfl)
  have h6 := h5.tail (AddStep.rel2 _ rfl)
  exact h6

end VendorMS
